import Mathlib

/-!
Shallow embedding of `src/Quick_Learn.py`, a single straight-line tutorial
script over the ZED stereo-camera SDK (`pyzed.sl`), NumPy and OpenCV.

The script: builds `InitParameters` (HD1080, 30 fps, PERFORMANCE depth mode,
millimeter units), opens the camera (exiting if `open` does not return
`SUCCESS`), prints the serial number, grabs one frame and — only inside the
`grab() == SUCCESS` branch — retrieves the left image, the depth measure, the
depth view and the point cloud and queries the image timestamp.  After that
branch it unconditionally converts the four `sl.Mat`s to arrays, prints
metadata, samples the depth at pixel `(1000, 600)`, draws a circle on the left
image, shows two windows, saves the depth matrix with
`np.savetxt(f"{timestamp.get_milliseconds()}.txt", depth_data, fmt="%.8f")`,
and closes the camera.  Note that when `grab` fails, `timestamp` is still
`None`, so the f-string at line 120 raises `AttributeError`: the run aborts
before `savetxt` and `close`.

External SDK/OpenCV behaviour (what the camera returns, what `cv2.circle`
draws) is a parameter `Env` of the model; the script's own control flow, its
event sequence, the strings it prints and the file it exports are modelled
from the source.  Depth values are carried as exact decimal numerals
(`Dec`), the decimal that Python's `repr` of the sampled float prints;
`"%.8f"` formatting is modelled exactly (round half to even, 8 fractional
digits, `nan` for not-a-number), as is NumPy's `savetxt` row layout
(one text row per matrix row, values joined by single spaces).
-/

namespace sl

/-- Error codes of the SDK as the spec's error taxonomy names them:
`SUCCESS`, open failure, capture (grab) failure, out-of-range sampling. -/
inductive ERROR_CODE
  | SUCCESS
  | OPEN_ERROR
  | CAPTURE_ERROR
  | RANGE_ERROR
  deriving DecidableEq, Repr

/-- Printable name of an error code, as `str()` of the pyzed enum renders it
(the source's own comment at line 104 shows `(SUCCESS, 709.8384399414062)`). -/
def ERROR_CODE.name : ERROR_CODE → String
  | .SUCCESS => "SUCCESS"
  | .OPEN_ERROR => "OPEN_ERROR"
  | .CAPTURE_ERROR => "CAPTURE_ERROR"
  | .RANGE_ERROR => "RANGE_ERROR"

/-- Camera resolutions (the script uses `HD1080`). -/
inductive RESOLUTION
  | HD1080
  | HD720
  deriving DecidableEq, Repr

/-- Width in pixels of a resolution. -/
def RESOLUTION.width : RESOLUTION → ℕ
  | .HD1080 => 1920
  | .HD720 => 1280

/-- Height in pixels of a resolution. -/
def RESOLUTION.height : RESOLUTION → ℕ
  | .HD1080 => 1080
  | .HD720 => 720

/-- Depth computation modes (the script uses `PERFORMANCE`). -/
inductive DEPTH_MODE
  | PERFORMANCE
  | QUALITY
  deriving DecidableEq, Repr

/-- Measurement units (the script uses `MILLIMETER`). -/
inductive UNIT
  | MILLIMETER
  | METER
  deriving DecidableEq, Repr

/-- Views passed to `retrieve_image` in the script. -/
inductive VIEW
  | LEFT
  | DEPTH
  deriving DecidableEq, Repr

/-- Measures passed to `retrieve_measure` in the script. -/
inductive MEASURE
  | DEPTH
  | XYZRGBA
  deriving DecidableEq, Repr

/-- `sl.InitParameters`: the configuration record the script fills in at
lines 21-25 before calling `zed.open`. -/
structure InitParameters where
  camera_resolution : RESOLUTION
  camera_fps : ℕ
  depth_mode : DEPTH_MODE
  coordinate_units : UNIT
  deriving DecidableEq, Repr

end sl

/-- An exact decimal numeral `mant / 10 ^ exp`.  A sampled depth float is
carried as the decimal that Python's `repr` of it prints (e.g. the source's
documented sample `709.8384399414062` is `⟨7098384399414062, 13⟩`). -/
structure Dec where
  mant : ℤ
  exp : ℕ
  deriving DecidableEq, Repr

/-- The rational value of a decimal numeral. -/
def Dec.toRat (d : Dec) : ℚ := (d.mant : ℚ) / (10 : ℚ) ^ d.exp

/-- A depth-matrix entry: a finite decimal value, or not-a-number where the
SDK leaves depth unresolved. -/
inductive Px
  | fin (d : Dec)
  | nan
  deriving DecidableEq, Repr

/-- Contents of a single-channel float `sl.Mat` (the depth measure):
dimensions plus the value at each `(x, y)`. -/
structure MatData where
  width : ℕ
  height : ℕ
  at_ : ℕ → ℕ → Px

/-- A freshly constructed, never-filled `sl.Mat()` (no grab has written it). -/
def emptyMat : MatData := ⟨0, 0, fun _ _ => Px.nan⟩

/-- Contents of a 4-channel 8-bit image buffer (B, G, R, A per pixel). -/
def ImageBuf : Type := ℕ → ℕ → ℕ × ℕ × ℕ × ℕ

/-- The empty image buffer backing an unfilled image `sl.Mat`. -/
def emptyImage : ImageBuf := fun _ _ => (0, 0, 0, 0)

/-- Contents of the XYZRGBA point-cloud buffer: four floats per pixel. -/
def PointBuf : Type := ℕ → ℕ → Px × Px × Px × Px

/-- The empty point-cloud buffer backing an unfilled `sl.Mat`. -/
def emptyPoint : PointBuf := fun _ _ => (Px.nan, Px.nan, Px.nan, Px.nan)

/-- Modelled from the spec: `sl.Mat.get_value` is SDK code not present in
this repository; spec §4.4 gives its contract — within bounds it returns the
depth value at the pixel together with a status code (the value being
not-a-number where depth is unresolved), and out-of-bounds coordinates fail
with a `RangeError`. -/
def sl.Mat.get_value (m : MatData) (x y : ℕ) : sl.ERROR_CODE × Px :=
  if x < m.width ∧ y < m.height then (sl.ERROR_CODE.SUCCESS, m.at_ x y)
  else (sl.ERROR_CODE.RANGE_ERROR, Px.nan)

/-- `a / b` rounded half to even (banker's rounding), as C's `%f` conversion
used by Python's `%`-formatting and NumPy's `savetxt` rounds decimal
digits. -/
def rheDiv (a b : ℕ) : ℕ :=
  let q := a / b
  let r := a % b
  if 2 * r < b then q
  else if b < 2 * r then q + 1
  else if q % 2 = 0 then q else q + 1

/-- `|d| * 10^8` rounded half to even to an integer: the digit string of the
`"%.8f"` rendering of the decimal `d.mant / 10 ^ d.exp`. -/
def f8num (d : Dec) : ℕ := rheDiv (d.mant.natAbs * 10 ^ 8) (10 ^ d.exp)

/-- The 8 fractional digits of a `"%.8f"` rendering, most significant first;
`n` is already reduced modulo `10^8`. -/
def frac8 (n : ℕ) : String :=
  String.mk ((List.range 8).map fun i => Nat.digitChar (n / 10 ^ (7 - i) % 10))

/-- `"%.8f" % d`: optional sign, integer part, a point, exactly 8 fractional
digits, rounding half to even. -/
def fmtF8 (d : Dec) : String :=
  (if d.mant < 0 then "-" else "") ++ toString (f8num d / 100000000) ++ "." ++ frac8 (f8num d % 100000000)

/-- `"%.8f"` applied to a matrix entry: NaN renders as `nan`, as
`"%.8f" % float("nan")` does. -/
def fmtPx : Px → String
  | Px.fin d => fmtF8 d
  | Px.nan => "nan"

/-- Render a nonnegative decimal numeral `n / 10 ^ e` with its decimal point,
zero-padding so the integer part is nonempty. -/
def renderDecNat (n e : ℕ) : String :=
  if e = 0 then toString n ++ ".0"
  else
    let s := toString n
    let s := if s.length ≤ e then String.mk (List.replicate (e + 1 - s.length) '0') ++ s else s
    (s.take (s.length - e)) ++ "." ++ (s.drop (s.length - e))

/-- Python's `repr` of the sampled depth float: the decimal numeral the
script carries for it (sign, digits, decimal point). -/
def renderDec (d : Dec) : String :=
  if d.mant < 0 then "-" ++ renderDecNat d.mant.natAbs d.exp
  else renderDecNat d.mant.toNat d.exp

/-- `repr` of a matrix entry as it appears inside the printed tuple:
`repr(float("nan"))` is `nan`. -/
def reprPx : Px → String
  | Px.fin d => renderDec d
  | Px.nan => "nan"

/-- `np.savetxt(_, depth_data, fmt="%.8f")` row contents: one list of
formatted entries per matrix row (`depth_data[i][j]` is the value at
`x = j`, `y = i`). -/
def savetxtRows (m : MatData) : List (List String) :=
  (List.range m.height).map fun i => (List.range m.width).map fun j => fmtPx (m.at_ j i)

/-- The text lines `savetxt` writes: each row's entries joined by single
spaces (the default delimiter). -/
def savetxtLines (m : MatData) : List String :=
  (savetxtRows m).map (String.intercalate " ")

/-- Which of the four script buffers a `get_data()` conversion targets. -/
inductive BufName
  | image
  | depth
  | depthView
  | point
  deriving DecidableEq, Repr

/-- The configuration fields assigned at lines 22-25. -/
inductive ConfigField
  | resolution
  | fps
  | depthMode
  | units
  deriving DecidableEq, Repr

/-- One observable operation of the script, in program order. -/
inductive Event
  | setConfig (f : ConfigField)
  | openCam (p : sl.InitParameters)
  | getInfo
  | grab
  | retrieveImage (v : sl.VIEW)
  | retrieveMeasure (m : sl.MEASURE)
  | getTimestamp
  | getData (b : BufName)
  | printMeta
  | getValue (x y : ℕ)
  | circle
  | imshow (w : String)
  | savetxt
  | close
  deriving DecidableEq, Repr

/-- Retrieval calls on the session: `retrieve_image`, `retrieve_measure`,
and the timestamp query. -/
def Event.isRetrieval : Event → Bool
  | .retrieveImage _ => true
  | .retrieveMeasure _ => true
  | .getTimestamp => true
  | _ => false

/-- How a run of the script ends: `exitedEarly` via `exit()` when `open`
fails, `crashed` via the `AttributeError` raised by
`timestamp.get_milliseconds()` when `timestamp` is `None`, or `completed`. -/
inductive Outcome
  | exitedEarly
  | crashed
  | completed
  deriving DecidableEq, Repr

/-- The script's array buffers after the `get_data()` conversions, as they
stand at the end of the run. -/
structure Buffers where
  image_data : ImageBuf
  depth_data : MatData
  depth_imag : ImageBuf
  point_data : PointBuf

/-- Buffers of a run where no grab succeeded. -/
def emptyBufs : Buffers := ⟨emptyImage, emptyMat, emptyImage, emptyPoint⟩

/-- Everything the outside world sees of one run: the operations performed,
the diagnostic lines printed (serial, resolution/timestamp, depth sample —
the metadata block of lines 85-92 is carried as the `printMeta` event), the
depth sample pair, the exported file (name and formatted rows), the final
buffers, and how the run ended. -/
structure RunResult where
  events : List Event
  printed : List String
  sample : Option (sl.ERROR_CODE × Px)
  exported : Option (String × List (List String))
  bufs : Buffers
  outcome : Outcome

/-- External behaviour the script calls into: the camera/SDK responses for
this run and OpenCV's circle rasteriser.  `depthAt`, `imageMat`,
`depthViewMat`, `pointMat` and `timestampMs` describe the frame bundle a
successful grab produces. -/
structure Env where
  openResult : sl.InitParameters → sl.ERROR_CODE
  serial : ℕ
  grabResult : sl.ERROR_CODE
  depthAt : ℕ → ℕ → Px
  imageMat : ImageBuf
  depthViewMat : ImageBuf
  pointMat : PointBuf
  timestampMs : ℕ
  cv2Circle : ImageBuf → ℕ × ℕ → ImageBuf

/-- The fully-assigned configuration of lines 21-25: HD1080 resolution,
30 fps, PERFORMANCE depth mode, millimeter units. -/
def initParamsFull : sl.InitParameters :=
  { camera_resolution := sl.RESOLUTION.HD1080
    camera_fps := 30
    depth_mode := sl.DEPTH_MODE.PERFORMANCE
    coordinate_units := sl.UNIT.MILLIMETER }

/-- The four configuration assignments of lines 22-25, in source order. -/
def cfgEvents : List Event :=
  [Event.setConfig ConfigField.resolution, Event.setConfig ConfigField.fps,
   Event.setConfig ConfigField.depthMode, Event.setConfig ConfigField.units]

/-- The line printed at lines 99-103 for the depth sample: Python formats the
`(status, value)` tuple returned by `get_value` with `str`, which prints the
status name and the `repr` of the float. -/
def sampleLineFor (x y : ℕ) (s : sl.ERROR_CODE × Px) : String :=
  "The depth of the " ++ toString x ++ " " ++ toString y ++ " is (" ++
    s.1.name ++ ", " ++ reprPx s.2 ++ ")"

/-- The script of `src/Quick_Learn.py`, line by line, with the sample pixel
`(x_value, y_value)` of lines 97-98 as parameters (the source fixes them to
`1000` and `600`; see `runScript`). -/
def runScriptAt (env : Env) (x_value y_value : ℕ) : RunResult :=
  let p := initParamsFull
  if env.openResult p = sl.ERROR_CODE.SUCCESS then
    let serialLine := "Hello! This is my serial number: " ++ toString env.serial
    let grabOk := env.grabResult = sl.ERROR_CODE.SUCCESS
    let depthMat : MatData :=
      if grabOk then ⟨1920, 1080, env.depthAt⟩ else emptyMat
    let image0 : ImageBuf := if grabOk then env.imageMat else emptyImage
    let depthView0 : ImageBuf := if grabOk then env.depthViewMat else emptyImage
    let point0 : PointBuf := if grabOk then env.pointMat else emptyPoint
    let timestamp : Option ℕ := if grabOk then some env.timestampMs else none
    let grabEvents : List Event :=
      Event.grab ::
        (if grabOk then
          [Event.retrieveImage sl.VIEW.LEFT, Event.retrieveMeasure sl.MEASURE.DEPTH,
           Event.retrieveImage sl.VIEW.DEPTH, Event.retrieveMeasure sl.MEASURE.XYZRGBA,
           Event.getTimestamp]
        else [])
    let resLines : List String :=
      if grabOk then
        ["Image resolution: 1920 x 1080 || Image timestamp: " ++ toString env.timestampMs]
      else []
    let dataEvents : List Event :=
      [Event.getData BufName.image, Event.getData BufName.depth,
       Event.getData BufName.depthView, Event.getData BufName.point, Event.printMeta]
    let sample := sl.Mat.get_value depthMat x_value y_value
    let sampleLine := sampleLineFor x_value y_value sample
    let image1 := env.cv2Circle image0 (x_value, y_value)
    let dispEvents : List Event :=
      [Event.circle, Event.imshow "LEFT View", Event.imshow "Depth View"]
    let eventsPre :=
      cfgEvents ++ [Event.openCam p, Event.getInfo] ++ grabEvents ++ dataEvents ++
        [Event.getValue x_value y_value] ++ dispEvents
    let printed := [serialLine] ++ resLines ++ [sampleLine]
    let bufs : Buffers := ⟨image1, depthMat, depthView0, point0⟩
    match timestamp with
    | none =>
      { events := eventsPre, printed := printed, sample := some sample,
        exported := none, bufs := bufs, outcome := Outcome.crashed }
    | some ms =>
      let filename := toString ms ++ ".txt"
      { events := eventsPre ++ [Event.savetxt, Event.close], printed := printed,
        sample := some sample, exported := some (filename, savetxtRows depthMat),
        bufs := bufs, outcome := Outcome.completed }
  else
    { events := cfgEvents ++ [Event.openCam p], printed := [], sample := none,
      exported := none, bufs := emptyBufs, outcome := Outcome.exitedEarly }

/-- The script exactly as written: sample pixel `(1000, 600)`. -/
def runScript (env : Env) : RunResult := runScriptAt env 1000 600

/-- The exported entry in row `i`, column `j` of the saved file, when a file
was exported and the indices are in range. -/
def exportedEntryAt (r : RunResult) (i j : ℕ) : Option String :=
  r.exported.bind fun pr => pr.2[i]?.bind fun row => row[j]?

/-- The depth value the source's line-104 comment documents at (1000, 600):
`709.8384399414062`. -/
def v709 : Dec := ⟨7098384399414062, 13⟩

/-- A run where everything succeeds: the depth matrix holds `709.8384399414062`
everywhere, matching the sampled value the source documents. -/
def env0 : Env :=
  { openResult := fun _ => sl.ERROR_CODE.SUCCESS
    serial := 12345
    grabResult := sl.ERROR_CODE.SUCCESS
    depthAt := fun _ _ => Px.fin v709
    imageMat := fun _ _ => (0, 0, 0, 255)
    depthViewMat := fun _ _ => (0, 0, 0, 255)
    pointMat := fun _ _ => (Px.nan, Px.nan, Px.nan, Px.nan)
    timestampMs := 1709651329565
    cv2Circle := fun img _ => img }

/-- A run where `grab` fails (e.g. end of recorded data). -/
def envFailGrab : Env := { env0 with grabResult := sl.ERROR_CODE.CAPTURE_ERROR }

/-- A run where `open` fails (device unavailable). -/
def envFailOpen : Env := { env0 with openResult := fun _ => sl.ERROR_CODE.OPEN_ERROR }

/-- Claim C1 as stated: when `grab` does not return `SUCCESS`, every step
depending on the frame bundle — retrieval, metadata printing, pixel
sampling, display, export — is skipped, and grab is not retried. -/
def C1Claim (env : Env) : Prop :=
  env.grabResult ≠ sl.ERROR_CODE.SUCCESS →
    ((∀ v, Event.retrieveImage v ∉ (runScript env).events) ∧
     (∀ m, Event.retrieveMeasure m ∉ (runScript env).events) ∧
     Event.getTimestamp ∉ (runScript env).events ∧
     Event.printMeta ∉ (runScript env).events ∧
     (∀ x y, Event.getValue x y ∉ (runScript env).events) ∧
     Event.circle ∉ (runScript env).events ∧
     (∀ w, Event.imshow w ∉ (runScript env).events) ∧
     (runScript env).exported = none) ∧
    (runScript env).events.count Event.grab ≤ 1

/-- Claim C2 as stated, at the depth value and pixel the source documents:
both the printed sample line and the exported entry at row 600, column 1000
encode `709.8384399414062` rounded to 8 decimal places. -/
def C2Claim : Prop :=
  ("The depth of the 1000 600 is (SUCCESS, " ++ fmtF8 v709 ++ ")")
      ∈ (runScript env0).printed ∧
  exportedEntryAt (runScript env0) 600 1000 = some (fmtF8 v709)

/-- Claim C3 as stated, on the successful run `env0`: sampling out of the
HD1080 bounds fails with a `RangeError` and the script performs no export. -/
def C3Claim : Prop :=
  ∀ x y : ℕ, ¬(x < 1920 ∧ y < 1080) →
    (runScriptAt env0 x y).sample = some (sl.ERROR_CODE.RANGE_ERROR, Px.nan) ∧
    (runScriptAt env0 x y).exported = none

/-! ### Helper lemmas: the event trace and outputs on each control-flow path -/

/-- When `open` fails, the run stops after the configuration and the `open`
call (line 32's `exit()`). -/
theorem events_openFail (env : Env) (x y : ℕ)
    (hO : env.openResult initParamsFull ≠ sl.ERROR_CODE.SUCCESS) :
    (runScriptAt env x y).events =
      [Event.setConfig ConfigField.resolution, Event.setConfig ConfigField.fps,
       Event.setConfig ConfigField.depthMode, Event.setConfig ConfigField.units,
       Event.openCam initParamsFull] := by
  simp [runScriptAt, hO, cfgEvents]

/-- When `open` succeeds but `grab` does not, the run still performs the
conversions, metadata print, sample, annotation and both displays, then
aborts at line 120 (`timestamp` is `None`) before `savetxt` and `close`. -/
theorem events_grabFail (env : Env) (x y : ℕ)
    (hO : env.openResult initParamsFull = sl.ERROR_CODE.SUCCESS)
    (hG : env.grabResult ≠ sl.ERROR_CODE.SUCCESS) :
    (runScriptAt env x y).events =
      [Event.setConfig ConfigField.resolution, Event.setConfig ConfigField.fps,
       Event.setConfig ConfigField.depthMode, Event.setConfig ConfigField.units,
       Event.openCam initParamsFull, Event.getInfo, Event.grab,
       Event.getData BufName.image, Event.getData BufName.depth,
       Event.getData BufName.depthView, Event.getData BufName.point, Event.printMeta,
       Event.getValue x y, Event.circle, Event.imshow "LEFT View",
       Event.imshow "Depth View"] := by
  simp [runScriptAt, hO, hG, cfgEvents]

/-- The full event trace of a run where `open` and `grab` both succeed. -/
theorem events_success (env : Env) (x y : ℕ)
    (hO : env.openResult initParamsFull = sl.ERROR_CODE.SUCCESS)
    (hG : env.grabResult = sl.ERROR_CODE.SUCCESS) :
    (runScriptAt env x y).events =
      [Event.setConfig ConfigField.resolution, Event.setConfig ConfigField.fps,
       Event.setConfig ConfigField.depthMode, Event.setConfig ConfigField.units,
       Event.openCam initParamsFull, Event.getInfo, Event.grab,
       Event.retrieveImage sl.VIEW.LEFT, Event.retrieveMeasure sl.MEASURE.DEPTH,
       Event.retrieveImage sl.VIEW.DEPTH, Event.retrieveMeasure sl.MEASURE.XYZRGBA,
       Event.getTimestamp, Event.getData BufName.image, Event.getData BufName.depth,
       Event.getData BufName.depthView, Event.getData BufName.point, Event.printMeta,
       Event.getValue x y, Event.circle, Event.imshow "LEFT View",
       Event.imshow "Depth View", Event.savetxt, Event.close] := by
  simp [runScriptAt, hO, hG, cfgEvents]

/-- On the grab-failure path the run crashes before exporting. -/
theorem outputs_grabFail (env : Env) (x y : ℕ)
    (hO : env.openResult initParamsFull = sl.ERROR_CODE.SUCCESS)
    (hG : env.grabResult ≠ sl.ERROR_CODE.SUCCESS) :
    (runScriptAt env x y).exported = none ∧
      (runScriptAt env x y).outcome = Outcome.crashed := by
  simp [runScriptAt, hO, hG]

/-- On the fully successful path the run completes and exports the retrieved
HD1080 depth matrix under the timestamp filename. -/
theorem outputs_success (env : Env) (x y : ℕ)
    (hO : env.openResult initParamsFull = sl.ERROR_CODE.SUCCESS)
    (hG : env.grabResult = sl.ERROR_CODE.SUCCESS) :
    (runScriptAt env x y).exported =
      some (toString env.timestampMs ++ ".txt", savetxtRows ⟨1920, 1080, env.depthAt⟩) ∧
      (runScriptAt env x y).outcome = Outcome.completed := by
  simp [runScriptAt, hO, hG]

/-- Entry `(i, j)` of the `savetxt` rows is the `"%.8f"` rendering of the
matrix value at `x = j`, `y = i`. -/
theorem savetxt_entry (m : MatData) (i j : ℕ) (hi : i < m.height) (hj : j < m.width) :
    (savetxtRows m)[i]?.bind (fun row => row[j]?) = some (fmtPx (m.at_ j i)) := by
  simp [savetxtRows, List.getElem?_map, List.getElem?_range, hi, hj]

/-! ### Claims -/

/-- C5: if opening the camera with the built configuration fails, the script
terminates immediately — no grab, retrieval, sampling, display or export is
attempted (lines 30-32: `err = zed.open(init_params); if err != SUCCESS: exit()`). -/
theorem C5_open_failure_stops_script (env : Env) (x y : ℕ)
    (hO : env.openResult initParamsFull ≠ sl.ERROR_CODE.SUCCESS) :
    (runScriptAt env x y).events =
      [Event.setConfig ConfigField.resolution, Event.setConfig ConfigField.fps,
       Event.setConfig ConfigField.depthMode, Event.setConfig ConfigField.units,
       Event.openCam initParamsFull] ∧
    Event.grab ∉ (runScriptAt env x y).events ∧
    (∀ e ∈ (runScriptAt env x y).events, e.isRetrieval = false) ∧
    (∀ a b, Event.getValue a b ∉ (runScriptAt env x y).events) ∧
    (∀ w, Event.imshow w ∉ (runScriptAt env x y).events) ∧
    Event.savetxt ∉ (runScriptAt env x y).events ∧
    (runScriptAt env x y).sample = none ∧
    (runScriptAt env x y).exported = none ∧
    (runScriptAt env x y).outcome = Outcome.exitedEarly := by
  have hev := events_openFail env x y hO
  refine ⟨hev, ?_, ?_, ?_, ?_, ?_, ?_, ?_, ?_⟩
  · rw [hev]; decide
  · rw [hev]
    intro e he
    simp only [List.mem_cons, List.not_mem_nil, or_false] at he
    rcases he with rfl | rfl | rfl | rfl | rfl <;> simp [Event.isRetrieval]
  · intro a b; rw [hev]; simp
  · intro w; rw [hev]; simp
  · rw [hev]; decide
  · simp [runScriptAt, hO]
  · simp [runScriptAt, hO]
  · simp [runScriptAt, hO]

/-- C5 witness: a concrete run whose `open` fails. -/
theorem C5_witness :
    envFailOpen.openResult initParamsFull ≠ sl.ERROR_CODE.SUCCESS ∧
      (runScriptAt envFailOpen 1000 600).outcome = Outcome.exitedEarly :=
  ⟨by decide, (C5_open_failure_stops_script envFailOpen 1000 600 (by decide)).2.2.2.2.2.2.2.2⟩

/-- C6: for every integer pixel coordinate within the image bounds, the
depth sampler returns a status code together with a value that is either a
finite decimal or not-a-number (it is a total function: no exception).
`sl.Mat.get_value` is modelled from the spec (§4.4), as the sampler is SDK
code not present in this repository. -/
theorem C6_sampler_total_within_bounds (m : MatData) (x y : ℕ)
    (hx : x < m.width) (hy : y < m.height) :
    sl.Mat.get_value m x y = (sl.ERROR_CODE.SUCCESS, m.at_ x y) ∧
      ((∃ d, m.at_ x y = Px.fin d) ∨ m.at_ x y = Px.nan) := by
  refine ⟨by simp [sl.Mat.get_value, hx, hy], ?_⟩
  cases h : m.at_ x y with
  | fin d => exact Or.inl ⟨d, rfl⟩
  | nan => exact Or.inr rfl

/-- C6 witness: the sampler evaluated within bounds on a concrete matrix. -/
theorem C6_witness :
    (1000 < (⟨1920, 1080, fun _ _ => Px.fin v709⟩ : MatData).width) ∧
    (600 < (⟨1920, 1080, fun _ _ => Px.fin v709⟩ : MatData).height) ∧
    (sl.Mat.get_value ⟨1920, 1080, fun _ _ => Px.fin v709⟩ 1000 600 =
        (sl.ERROR_CODE.SUCCESS, Px.fin v709) ∧
      ((∃ d, Px.fin v709 = Px.fin d) ∨ (Px.fin v709 = Px.nan))) :=
  ⟨by decide, by decide,
    C6_sampler_total_within_bounds ⟨1920, 1080, fun _ _ => Px.fin v709⟩ 1000 600
      (by decide) (by decide)⟩

/-- C7: every retrieval call on the session (`retrieve_image` for the left
and depth views, `retrieve_measure` for depth and point cloud, and the
timestamp query) happens only in runs where `grab()` returned `SUCCESS`,
and only at a trace position strictly after the `grab` call. -/
theorem C7_retrieval_only_after_successful_grab (env : Env) (x y : ℕ) (e : Event)
    (he : e ∈ (runScriptAt env x y).events) (hr : e.isRetrieval = true) :
    env.grabResult = sl.ERROR_CODE.SUCCESS ∧
    ∃ i j : ℕ, i < j ∧ (runScriptAt env x y).events[i]? = some Event.grab ∧
      (runScriptAt env x y).events[j]? = some e := by
  by_cases hO : env.openResult initParamsFull = sl.ERROR_CODE.SUCCESS
  · by_cases hG : env.grabResult = sl.ERROR_CODE.SUCCESS
    · simp only [events_success env x y hO hG] at he ⊢
      simp only [List.mem_cons, List.not_mem_nil, or_false] at he
      rcases he with rfl|rfl|rfl|rfl|rfl|rfl|rfl|rfl|rfl|rfl|rfl|rfl|rfl|rfl|rfl|rfl|rfl|rfl|rfl|rfl|rfl|rfl|rfl <;>
        first
          | exact ⟨hG, 6, 7, by omega, rfl, rfl⟩
          | exact ⟨hG, 6, 8, by omega, rfl, rfl⟩
          | exact ⟨hG, 6, 9, by omega, rfl, rfl⟩
          | exact ⟨hG, 6, 10, by omega, rfl, rfl⟩
          | exact ⟨hG, 6, 11, by omega, rfl, rfl⟩
          | simp [Event.isRetrieval] at hr
    · rw [events_grabFail env x y hO hG] at he
      simp only [List.mem_cons, List.not_mem_nil, or_false] at he
      rcases he with rfl|rfl|rfl|rfl|rfl|rfl|rfl|rfl|rfl|rfl|rfl|rfl|rfl|rfl|rfl|rfl <;>
        simp [Event.isRetrieval] at hr
  · rw [events_openFail env x y hO] at he
    simp only [List.mem_cons, List.not_mem_nil, or_false] at he
    rcases he with rfl|rfl|rfl|rfl|rfl <;> simp [Event.isRetrieval] at hr

/-- C7 witness: the left-image retrieval of a concrete successful run. -/
theorem C7_witness :
    Event.retrieveImage sl.VIEW.LEFT ∈ (runScriptAt env0 1000 600).events ∧
    (Event.retrieveImage sl.VIEW.LEFT).isRetrieval = true ∧
    env0.grabResult = sl.ERROR_CODE.SUCCESS :=
  ⟨by decide, by decide,
    (C7_retrieval_only_after_successful_grab env0 1000 600 (Event.retrieveImage sl.VIEW.LEFT)
      (by decide) (by decide)).1⟩

/-- C1, as stated, is false: in a run where `open` succeeds and `grab` fails,
the metadata print (among other bundle-dependent steps) is still executed,
because lines 80-121 sit outside the `grab() == SUCCESS` branch. -/
theorem C1_counterexample : ¬ C1Claim envFailGrab := by
  intro h
  obtain ⟨⟨-, -, -, hmeta, -⟩, -⟩ := h (by decide)
  exact hmeta (by decide)

/-- C1 amended: when `grab` fails, the retrieval calls and the timestamp
query are skipped and `grab` is not retried, but metadata printing, pixel
sampling and the two displays still execute; no export happens only because
the run aborts with an error at the filename f-string (`timestamp` is
`None`), and `close` is never reached. -/
theorem C1_grab_failure_behaviour (env : Env)
    (hO : env.openResult initParamsFull = sl.ERROR_CODE.SUCCESS)
    (hG : env.grabResult ≠ sl.ERROR_CODE.SUCCESS) :
    (∀ v, Event.retrieveImage v ∉ (runScript env).events) ∧
    (∀ m, Event.retrieveMeasure m ∉ (runScript env).events) ∧
    Event.getTimestamp ∉ (runScript env).events ∧
    (runScript env).events.count Event.grab = 1 ∧
    Event.printMeta ∈ (runScript env).events ∧
    Event.getValue 1000 600 ∈ (runScript env).events ∧
    Event.circle ∈ (runScript env).events ∧
    Event.imshow "LEFT View" ∈ (runScript env).events ∧
    Event.imshow "Depth View" ∈ (runScript env).events ∧
    (runScript env).exported = none ∧
    (runScript env).outcome = Outcome.crashed ∧
    Event.savetxt ∉ (runScript env).events ∧
    Event.close ∉ (runScript env).events := by
  have hev := events_grabFail env 1000 600 hO hG
  have hout := outputs_grabFail env 1000 600 hO hG
  simp only [runScript] at *
  rw [hev]
  refine ⟨?_, ?_, by decide, by decide, by decide, by decide, by decide, by decide,
    by decide, hout.1, hout.2, by decide, by decide⟩
  · intro v; rcases v <;> decide
  · intro m; rcases m <;> decide

/-- C1 witness: the concrete grab-failure run. -/
theorem C1_witness :
    envFailGrab.openResult initParamsFull = sl.ERROR_CODE.SUCCESS ∧
    envFailGrab.grabResult ≠ sl.ERROR_CODE.SUCCESS ∧
    Event.printMeta ∈ (runScript envFailGrab).events :=
  ⟨by decide, by decide,
    (C1_grab_failure_behaviour envFailGrab (by decide) (by decide)).2.2.2.2.1⟩

/-- C8: the configuration is fully assigned (HD1080 resolution, 30 fps,
PERFORMANCE depth mode, millimeter units) before the session is opened —
every event before `openCam` is a configuration assignment, all four fields
are assigned there, and no event after `openCam` modifies a configuration
field. -/
theorem C8_config_fixed_before_open (env : Env) (x y : ℕ) :
    ∃ pre post,
      (runScriptAt env x y).events = pre ++ Event.openCam initParamsFull :: post ∧
      (∀ f : ConfigField, Event.setConfig f ∈ pre) ∧
      (∀ e ∈ pre, ∃ f : ConfigField, e = Event.setConfig f) ∧
      (∀ e ∈ post, ∀ f : ConfigField, e ≠ Event.setConfig f) ∧
      initParamsFull.camera_resolution = sl.RESOLUTION.HD1080 ∧
      initParamsFull.camera_fps = 30 ∧
      initParamsFull.depth_mode = sl.DEPTH_MODE.PERFORMANCE ∧
      initParamsFull.coordinate_units = sl.UNIT.MILLIMETER := by
  refine ⟨[Event.setConfig ConfigField.resolution, Event.setConfig ConfigField.fps,
           Event.setConfig ConfigField.depthMode, Event.setConfig ConfigField.units],
          (runScriptAt env x y).events.drop 5, ?_, ?_, ?_, ?_, rfl, rfl, rfl, rfl⟩
  · by_cases hO : env.openResult initParamsFull = sl.ERROR_CODE.SUCCESS
    · by_cases hG : env.grabResult = sl.ERROR_CODE.SUCCESS
      · rw [events_success env x y hO hG]; rfl
      · rw [events_grabFail env x y hO hG]; rfl
    · rw [events_openFail env x y hO]; rfl
  · intro f; rcases f <;> decide
  · intro e he
    simp only [List.mem_cons, List.not_mem_nil, or_false] at he
    rcases he with rfl | rfl | rfl | rfl
    · exact ⟨ConfigField.resolution, rfl⟩
    · exact ⟨ConfigField.fps, rfl⟩
    · exact ⟨ConfigField.depthMode, rfl⟩
    · exact ⟨ConfigField.units, rfl⟩
  · intro e he f
    by_cases hO : env.openResult initParamsFull = sl.ERROR_CODE.SUCCESS
    · by_cases hG : env.grabResult = sl.ERROR_CODE.SUCCESS
      · rw [events_success env x y hO hG] at he
        simp only [List.drop, List.mem_cons, List.not_mem_nil, or_false] at he
        rcases he with rfl|rfl|rfl|rfl|rfl|rfl|rfl|rfl|rfl|rfl|rfl|rfl|rfl|rfl|rfl|rfl|rfl|rfl <;> simp
      · rw [events_grabFail env x y hO hG] at he
        simp only [List.drop, List.mem_cons, List.not_mem_nil, or_false] at he
        rcases he with rfl|rfl|rfl|rfl|rfl|rfl|rfl|rfl|rfl|rfl|rfl <;> simp
    · rw [events_openFail env x y hO] at he
      simp at he

/-- C9: on the fully successful path, `close` is the last session operation —
it is the final event of the trace, occurs exactly once, and the run
completes normally. -/
theorem C9_close_is_terminal (env : Env)
    (hO : env.openResult initParamsFull = sl.ERROR_CODE.SUCCESS)
    (hG : env.grabResult = sl.ERROR_CODE.SUCCESS) :
    (runScript env).events.getLast? = some Event.close ∧
    (runScript env).events.count Event.close = 1 ∧
    (runScript env).outcome = Outcome.completed := by
  have hev := events_success env 1000 600 hO hG
  have hout := outputs_success env 1000 600 hO hG
  simp only [runScript] at *
  rw [hev]
  exact ⟨by decide, by decide, hout.2⟩

/-- C9 witness: the concrete successful run ends in `close`. -/
theorem C9_witness :
    env0.openResult initParamsFull = sl.ERROR_CODE.SUCCESS ∧
    env0.grabResult = sl.ERROR_CODE.SUCCESS ∧
    (runScript env0).events.getLast? = some Event.close :=
  ⟨by decide, by decide, (C9_close_is_terminal env0 (by decide) (by decide)).1⟩

/-- C10: on the successful path, the marker annotation before display
touches only the left-image buffer — the depth matrix, depth view and point
cloud at the end of the run are exactly the retrieved ones, and the exported
rows are serialized from that untouched depth matrix. -/
theorem C10_annotation_leaves_depth_untouched (env : Env)
    (hO : env.openResult initParamsFull = sl.ERROR_CODE.SUCCESS)
    (hG : env.grabResult = sl.ERROR_CODE.SUCCESS) :
    (runScript env).bufs.depth_data = ⟨1920, 1080, env.depthAt⟩ ∧
    (runScript env).bufs.image_data = env.cv2Circle env.imageMat (1000, 600) ∧
    (runScript env).bufs.depth_imag = env.depthViewMat ∧
    (runScript env).bufs.point_data = env.pointMat ∧
    (runScript env).exported =
      some (toString env.timestampMs ++ ".txt", savetxtRows (runScript env).bufs.depth_data) := by
  simp [runScript, runScriptAt, hO, hG]

/-- C10 witness: the concrete successful run. -/
theorem C10_witness :
    env0.openResult initParamsFull = sl.ERROR_CODE.SUCCESS ∧
    env0.grabResult = sl.ERROR_CODE.SUCCESS ∧
    (runScript env0).bufs.depth_data = ⟨1920, 1080, env0.depthAt⟩ :=
  ⟨by decide, by decide, (C10_annotation_leaves_depth_untouched env0 rfl rfl).1⟩

/-- C2, as stated, is false: in the successful run `env0` (depth
`709.8384399414062` at pixel `(1000, 600)`), the printed sample line shows
the full `repr` of the value, `709.8384399414062` — not the 8-decimal
rounding `709.83843994` that the exported file carries. -/
theorem C2_counterexample : ¬ C2Claim := by
  intro h
  exact absurd h.1 (by decide)

/-- C2 amended: the exported entry at row 600, column 1000 is the value
rounded to 8 decimal places (`"%.8f"`), but the printed sample line encodes
the full value (Python prints the `(status, value)` tuple, whose float is
rendered by `repr`, unrounded). -/
theorem C2_print_full_export_rounded (env : Env)
    (hO : env.openResult initParamsFull = sl.ERROR_CODE.SUCCESS)
    (hG : env.grabResult = sl.ERROR_CODE.SUCCESS)
    (d : Dec) (hd : env.depthAt 1000 600 = Px.fin d) :
    sampleLineFor 1000 600 (sl.ERROR_CODE.SUCCESS, Px.fin d) ∈ (runScript env).printed ∧
    exportedEntryAt (runScript env) 600 1000 = some (fmtF8 d) := by
  constructor
  · simp [runScript, runScriptAt, hO, hG, sl.Mat.get_value, hd]
  · have hexp := (outputs_success env 1000 600 hO hG).1
    have hentry := savetxt_entry ⟨1920, 1080, env.depthAt⟩ 600 1000
      (show (600 : ℕ) < 1080 by norm_num) (show (1000 : ℕ) < 1920 by norm_num)
    obtain ⟨R, hR⟩ : ∃ R, savetxtRows ⟨1920, 1080, env.depthAt⟩ = R := ⟨_, rfl⟩
    rw [hR] at hentry
    simp only [runScript]
    unfold exportedEntryAt
    rw [hexp, hR]
    show R[600]?.bind (fun row => row[1000]?) = some (fmtF8 d)
    rw [hentry]
    simp [fmtPx, hd]

/-- C2 witness: the concrete run, with the two encodings evaluated. -/
theorem C2_witness :
    env0.depthAt 1000 600 = Px.fin v709 ∧
    renderDec v709 = "709.8384399414062" ∧
    fmtF8 v709 = "709.83843994" ∧
    exportedEntryAt (runScript env0) 600 1000 = some (fmtF8 v709) :=
  ⟨by decide, by decide, by decide,
    (C2_print_full_export_rounded env0 rfl rfl v709 rfl).2⟩

/-- C3, as stated, is false: sampling out of bounds does fail with a
`RangeError`, but the script still exports the depth matrix — `np.savetxt`
at line 121 runs unconditionally after the sample.  Concretely, at
`(x, y) = (1920, 600)` the export is still produced. -/
theorem C3_counterexample : ¬ C3Claim := by
  intro h
  exact absurd (h 1920 600 (by decide)).2 (by decide)

/-- C3 amended: out-of-bounds coordinates make the sampler return a
`RangeError` status (surfaced in the printed tuple), but the depth-matrix
export is still performed.  The sampler itself is modelled from the spec
(§4.4), being SDK code not present in this repository. -/
theorem C3_out_of_bounds_still_exports (env : Env) (x y : ℕ)
    (hO : env.openResult initParamsFull = sl.ERROR_CODE.SUCCESS)
    (hG : env.grabResult = sl.ERROR_CODE.SUCCESS)
    (hxy : ¬(x < 1920 ∧ y < 1080)) :
    (runScriptAt env x y).sample = some (sl.ERROR_CODE.RANGE_ERROR, Px.nan) ∧
    sampleLineFor x y (sl.ERROR_CODE.RANGE_ERROR, Px.nan) ∈ (runScriptAt env x y).printed ∧
    (runScriptAt env x y).exported =
      some (toString env.timestampMs ++ ".txt", savetxtRows ⟨1920, 1080, env.depthAt⟩) ∧
    Event.savetxt ∈ (runScriptAt env x y).events := by
  refine ⟨?_, ?_, (outputs_success env x y hO hG).1, ?_⟩
  · simp [runScriptAt, hO, hG, sl.Mat.get_value, hxy]
  · simp [runScriptAt, hO, hG, sl.Mat.get_value, hxy]
  · rw [events_success env x y hO hG]; simp

/-- C3 witness: the concrete out-of-bounds run at `(1920, 600)`. -/
theorem C3_witness :
    env0.openResult initParamsFull = sl.ERROR_CODE.SUCCESS ∧
    env0.grabResult = sl.ERROR_CODE.SUCCESS ∧
    ¬((1920 : ℕ) < 1920 ∧ (600 : ℕ) < 1080) ∧
    (runScriptAt env0 1920 600).sample = some (sl.ERROR_CODE.RANGE_ERROR, Px.nan) :=
  ⟨rfl, rfl, by decide,
    (C3_out_of_bounds_still_exports env0 1920 600 rfl rfl (by decide)).1⟩

/-- C4: the exported file has exactly one row per depth-matrix row (1080, the
configured HD1080 height) and one space-separated value per column (1920, the
HD1080 width); each entry is the `"%.8f"` rendering of its matrix value — for
finite values a numeral with exactly 8 digits after the decimal point — and
the filename is the capture timestamp in milliseconds followed by `.txt`. -/
theorem C4_export_file_format (env : Env)
    (hO : env.openResult initParamsFull = sl.ERROR_CODE.SUCCESS)
    (hG : env.grabResult = sl.ERROR_CODE.SUCCESS) :
    (runScript env).exported =
      some (toString env.timestampMs ++ ".txt", savetxtRows ⟨1920, 1080, env.depthAt⟩) ∧
    (savetxtRows ⟨1920, 1080, env.depthAt⟩).length = 1080 ∧
    (∀ row ∈ savetxtRows ⟨1920, 1080, env.depthAt⟩, row.length = 1920) ∧
    (∀ i j : ℕ, i < 1080 → j < 1920 →
      exportedEntryAt (runScript env) i j = some (fmtPx (env.depthAt j i))) ∧
    savetxtLines ⟨1920, 1080, env.depthAt⟩ =
      (savetxtRows ⟨1920, 1080, env.depthAt⟩).map (String.intercalate " ") ∧
    (∀ d : Dec, fmtF8 d =
        (if d.mant < 0 then "-" else "") ++ toString (f8num d / 100000000) ++ "." ++
          frac8 (f8num d % 100000000) ∧
      (frac8 (f8num d % 100000000)).length = 8) ∧
    1080 = sl.RESOLUTION.HD1080.height ∧ 1920 = sl.RESOLUTION.HD1080.width := by
  have hexp := (outputs_success env 1000 600 hO hG).1
  refine ⟨hexp, by simp [savetxtRows], ?_, ?_, rfl, ?_, rfl, rfl⟩
  · intro row hrow
    simp only [savetxtRows, List.mem_map, List.mem_range] at hrow
    obtain ⟨i, -, rfl⟩ := hrow
    simp
  · intro i j hi hj
    have hentry := savetxt_entry ⟨1920, 1080, env.depthAt⟩ i j hi hj
    obtain ⟨R, hR⟩ : ∃ R, savetxtRows ⟨1920, 1080, env.depthAt⟩ = R := ⟨_, rfl⟩
    rw [hR] at hentry
    simp only [runScript]
    unfold exportedEntryAt
    rw [hexp, hR]
    show R[i]?.bind (fun row => row[j]?) = some (fmtPx (env.depthAt j i))
    rw [hentry]
  · intro d
    exact ⟨rfl, by simp [frac8, String.length]⟩

/-- C4 witness: the concrete successful run, with the filename evaluated. -/
theorem C4_witness :
    env0.openResult initParamsFull = sl.ERROR_CODE.SUCCESS ∧
    env0.grabResult = sl.ERROR_CODE.SUCCESS ∧
    toString env0.timestampMs ++ ".txt" = "1709651329565.txt" ∧
    (savetxtRows ⟨1920, 1080, env0.depthAt⟩).length = 1080 :=
  ⟨rfl, rfl, by decide, (C4_export_file_format env0 rfl rfl).2.1⟩
